import Mathlib

/-!
# GeoGenocides — verification of the data pipeline

Shallow embedding of the repository's data pipeline
(`src/src/services.py`, `src/src/map_builder.py`, `src/src/repository.py`,
`src/src/view.py`, `src/streamlit_app.py`) and proofs of the specified
properties of `CaseService.normalize`, `CaseService.quality_issues`,
`CaseService.filter`, `MapBuilder.minimal_map_df`, `CSVRepository.load` and
the UI year-bound defaults.

A pandas `DataFrame` is embedded as a `List Row` with the 14 schema columns;
a single cell is a `Cell`: a string, a (pandas-)numeric value, a calendar
date (as produced by `pd.to_datetime(...).dt.date`), or the absent marker
(`NaN`/`NaT`).  Numeric cells are exact rationals; every value the claims
exercise is exactly representable, so float rounding plays no role.  The
pandas/Python library functions the pipeline calls (`pd.to_numeric`,
`pd.to_datetime`, `float()`, `str()`, `str.strip()`) are modelled on the
fragment of their input language the pipeline and the claims exercise:
decimal numerals for numbers, ISO `YYYY-MM-DD` strings for dates; inputs
outside that fragment (scientific notation, `inf`/`nan` numerals, non-ISO
date formats, `Timestamp` range limits) coerce to the absent marker, which
is also what pandas does for every malformed input.
-/

/-- Whitespace as stripped by Python's `str.strip()` and ignored by the
numeric/date parsers. -/
def isPySpace (c : Char) : Bool :=
  c = ' ' || c = '\t' || c = '\n' || c = '\r' || c = '\x0b' || c = '\x0c'

/-- Python `str.strip()`: remove leading and trailing whitespace. -/
def pyStrip (s : String) : String :=
  String.mk (((s.data.dropWhile isPySpace).reverse.dropWhile isPySpace).reverse)

/-- Value of a decimal digit. -/
def digitVal (c : Char) : Nat := c.toNat - '0'.toNat

/-- Accumulate a digit string into a natural number. -/
def digitsToNat (acc : Nat) : List Char → Nat
  | [] => acc
  | c :: cs => digitsToNat (acc * 10 + digitVal c) cs

/-- Python `float(s)` / `pd.to_numeric` on a decimal numeral:
optional surrounding whitespace, optional sign, digits with an optional
fractional part (`"91"`, `"-12.5"`, `".5"`, `"7."`).  Returns `none` when
the string is not such a numeral (Python raises `ValueError`, pandas
coerces to `NaN`). -/
def parseDecimal (s : String) : Option Rat :=
  let cs := ((s.data.dropWhile isPySpace).reverse.dropWhile isPySpace).reverse
  let (neg, cs) : Bool × List Char :=
    match cs with
    | '-' :: rest => (true, rest)
    | '+' :: rest => (false, rest)
    | rest => (false, rest)
  let ip := cs.takeWhile Char.isDigit
  let rest := cs.dropWhile Char.isDigit
  match rest with
  | [] =>
      if ip.isEmpty then none
      else
        let n := digitsToNat 0 ip
        some (mkRat (if neg then -(n : Int) else (n : Int)) 1)
  | '.' :: fr =>
      if fr.all Char.isDigit && !(ip.isEmpty && fr.isEmpty) then
        let n := digitsToNat 0 (ip ++ fr)
        some (mkRat (if neg then -(n : Int) else (n : Int)) (10 ^ fr.length))
      else none
  | _ => none

/-- A calendar date, as held in a `datetime.date` cell produced by
`pd.to_datetime(...).dt.date`. -/
structure PyDate where
  year : Int
  month : Nat
  day : Nat
  deriving DecidableEq, Repr

/-- Gregorian leap year. -/
def isLeap (y : Int) : Bool := (y % 4 = 0 && y % 100 ≠ 0) || y % 400 = 0

/-- Number of days in a month of the Gregorian calendar. -/
def daysInMonth (y : Int) (m : Nat) : Nat :=
  if m = 2 then (if isLeap y then 29 else 28)
  else if m = 4 || m = 6 || m = 9 || m = 11 then 30
  else 31

/-- `pd.to_datetime(s, errors="coerce")` on an ISO `YYYY-M[M]-D[D]` string:
optional surrounding whitespace, four-digit year, 1–2 digit month and day,
validated against the Gregorian calendar (`"2024-13-40"` coerces to `NaT`,
i.e. `none`). -/
def parsePyDate (s : String) : Option PyDate :=
  let cs := ((s.data.dropWhile isPySpace).reverse.dropWhile isPySpace).reverse
  let ys := cs.takeWhile Char.isDigit
  let r1 := cs.dropWhile Char.isDigit
  match r1 with
  | '-' :: r2 =>
      let ms := r2.takeWhile Char.isDigit
      let r3 := r2.dropWhile Char.isDigit
      match r3 with
      | '-' :: r4 =>
          let ds := r4.takeWhile Char.isDigit
          let r5 := r4.dropWhile Char.isDigit
          if r5.isEmpty && ys.length = 4 && 1 ≤ ms.length && ms.length ≤ 2 &&
              1 ≤ ds.length && ds.length ≤ 2 then
            let y := digitsToNat 0 ys
            let m := digitsToNat 0 ms
            let d := digitsToNat 0 ds
            if 1 ≤ m && m ≤ 12 && 1 ≤ d && d ≤ daysInMonth (y : Int) m then
              some ⟨(y : Int), m, d⟩
            else none
          else none
      | _ => none
  | _ => none

/-- Civil date from a count of days since the Unix epoch
(standard Gregorian conversion, used by pandas when a raw number is read as
an epoch offset). -/
def civilFromDays (z0 : Int) : PyDate :=
  let z := z0 + 719468
  let era := z.fdiv 146097
  let doe := z - era * 146097
  let yoe := (doe - doe.fdiv 1460 + doe.fdiv 36524 - doe.fdiv 146096).fdiv 365
  let doy := doe - (365 * yoe + yoe.fdiv 4 - yoe.fdiv 100)
  let mp := (5 * doy + 2).fdiv 153
  let d := doy - (153 * mp + 2).fdiv 5 + 1
  let m := mp + (if mp < 10 then 3 else -9)
  ⟨yoe + era * 400 + (if m ≤ 2 then 1 else 0), m.toNat, d.toNat⟩

/-- `pd.to_datetime` on a raw number: interpreted as nanoseconds since the
Unix epoch; the calendar date of the resulting timestamp. -/
def dateOfEpochNanos (q : Rat) : PyDate :=
  civilFromDays (q.num.fdiv ((q.den : Int) * 86400000000000))

/-- One cell of the table: a string, a numeric value, a calendar date, or
the absent marker (`NaN`/`NaT`). -/
inductive Cell where
  | str (s : String)
  | num (q : Rat)
  | date (d : PyDate)
  | absent
  deriving DecidableEq, Repr

/-- `pd.isna` on one cell. -/
def cellIsna : Cell → Bool
  | .absent => true
  | _ => false

/-- `pd.to_numeric(·, errors="coerce")`, elementwise: numbers pass through,
parseable numeral strings become numbers, everything else (including
`datetime.date` objects) coerces to `NaN`. -/
def toNumericCell : Cell → Cell
  | .num q => .num q
  | .absent => .absent
  | .str s =>
      match parseDecimal s with
      | some q => .num q
      | none => .absent
  | .date _ => .absent

/-- `pd.to_datetime(·, errors="coerce").dt.date`, elementwise: dates pass
through, parseable date strings become dates, raw numbers are read as epoch
nanoseconds, `NaN` stays absent (`NaT`). -/
def toDatetimeCell : Cell → Cell
  | .date d => .date d
  | .absent => .absent
  | .str s =>
      match parsePyDate s with
      | some d => .date d
      | none => .absent
  | .num q => .date (dateOfEpochNanos q)

/-- Digit accumulator for `natNumeral`; the first argument is fuel
(structural, so the kernel can evaluate it). -/
def natNumeralAux : Nat → Nat → List Char → List Char
  | 0, _, acc => acc
  | fuel + 1, n, acc =>
      if n < 10 then Char.ofNat ('0'.toNat + n) :: acc
      else natNumeralAux fuel (n / 10) (Char.ofNat ('0'.toNat + n % 10) :: acc)

/-- Decimal numeral of a natural number. -/
def natNumeral (n : Nat) : String :=
  String.mk (natNumeralAux (n + 1) n [])

/-- Decimal numeral of an integer. -/
def intNumeral (i : Int) : String :=
  if i < 0 then "-" ++ natNumeral (-i).toNat else natNumeral i.toNat

/-- Python `str()` of a float.  Exact for integral values (`str(60.0) =
"60.0"`); non-integral floats use shortest-roundtrip binary repr, outside
the modelled fragment, rendered here as `num/den` (no claim exercises it —
the claims only ever stringify integral or absent numeric cells, and the
only property used is that the result is a non-empty string). -/
def pyFloatStr (q : Rat) : String :=
  if q.den = 1 then intNumeral q.num ++ ".0"
  else intNumeral q.num ++ "/" ++ natNumeral q.den

/-- Left-pad a numeral with zeros to the given width. -/
def padZero (w : Nat) (s : String) : String :=
  String.mk (List.replicate (w - s.data.length) '0') ++ s

/-- Python `str()` of a `datetime.date`: ISO `YYYY-MM-DD`. -/
def pyDateStr (d : PyDate) : String :=
  (if d.year < 0 then "-" else "") ++ padZero 4 (natNumeral d.year.natAbs) ++
    "-" ++ padZero 2 (natNumeral d.month) ++ "-" ++ padZero 2 (natNumeral d.day)

/-- Python `str()` / pandas `astype(str)` of one cell; the absent marker
stringifies to `"nan"` (the float `NaN`). -/
def pyStrCell : Cell → String
  | .str s => s
  | .num q => pyFloatStr q
  | .date d => pyDateStr d
  | .absent => "nan"

/-- One row of the table, with the 14 schema columns
(`REQUIRED_COLS` in `src/src/config.py`). -/
structure Row where
  id : Cell
  name : Cell
  country : Cell
  region : Cell
  latitude : Cell
  longitude : Cell
  start_date : Cell
  status : Cell
  perpetrators : Cell
  targeted_group : Cell
  est_deaths : Cell
  last_verified : Cell
  sources : Cell
  summary : Cell
  deriving DecidableEq, Repr

/-- `CaseService.normalize`, rowwise: coerce `latitude`, `longitude`,
`est_deaths` with `pd.to_numeric(errors="coerce")` and `start_date`,
`last_verified` with `pd.to_datetime(errors="coerce").dt.date`; every other
column is untouched by the function. -/
def normalizeRow (r : Row) : Row :=
  { r with
    latitude := toNumericCell r.latitude
    longitude := toNumericCell r.longitude
    est_deaths := toNumericCell r.est_deaths
    start_date := toDatetimeCell r.start_date
    last_verified := toDatetimeCell r.last_verified }

/-- `CaseService.normalize` (`src/src/services.py`, lines 12–22).  All five
coercions use `errors="coerce"`, so they never raise and operate columnwise
on a copy: the function is total and rowcount-preserving by construction. -/
def CaseService.normalize (df : List Row) : List Row :=
  df.map normalizeRow

/-- Python `float(x)` on a cell: `some` the value, `none` when the call
raises (`ValueError` on a non-numeral string, `TypeError` on a date).
The `.absent` case is unreachable where this is used — `quality_issues`
only reaches `float` behind a `pd.isna` guard. -/
def pyFloat : Cell → Option Rat
  | .num q => some q
  | .str s => parseDecimal s
  | .date _ => none
  | .absent => none

/-- The `try` block of `CaseService.quality_issues`: the chained comparison
`-90 <= float(lat) <= 90 and -180 <= float(lon) <= 180`, evaluated left to
right with Python short-circuiting (`float(lon)` is never called when the
latitude check already failed); `none` means the block raised. -/
def rangeCheckExc (lat lon : Cell) : Option Bool :=
  (pyFloat lat).bind (fun la =>
    if -90 ≤ la ∧ la ≤ 90 then
      (pyFloat lon).map (fun lo => decide (-180 ≤ lo ∧ lo ≤ 180))
    else some false)

/-- The latitude/longitude messages of one row of
`CaseService.quality_issues` (`src/src/services.py`, lines 29–38). -/
def latLonMsgs (r : Row) : List String :=
  if cellIsna r.latitude || cellIsna r.longitude then ["lat/lon missing or invalid"]
  else
    match rangeCheckExc r.latitude r.longitude with
    | some ok => if ok then [] else ["lat/lon out of range"]
    | none => ["lat/lon invalid type"]

/-- All messages of one row of `CaseService.quality_issues`: the
latitude/longitude message, then `"missing sources"` when
`str(row.get("sources", "")).strip()` is empty. -/
def rowIssues (r : Row) : List String :=
  latLonMsgs r ++ (if pyStrip (pyStrCell r.sources) = "" then ["missing sources"] else [])

/-- The `for idx, row in df.iterrows()` loop of `quality_issues`, with the
running row index (a fresh `DataFrame` carries the range index 0,1,2,…). -/
def qiAux : Nat → List Row → List (Nat × String)
  | _, [] => []
  | i, r :: rs =>
      (if rowIssues r = [] then [] else [(i, String.intercalate "; " (rowIssues r))]) ++
        qiAux (i + 1) rs

/-- `CaseService.quality_issues` (`src/src/services.py`, lines 25–43):
purely diagnostic — it reads `df` and returns an index/message list, never
writing to the table. -/
def CaseService.quality_issues (df : List Row) : List (Nat × String) :=
  qiAux 0 df

/-- The year predicate of `CaseService.filter`:
`sd = pd.to_datetime(fdf["start_date"], errors="coerce")` followed by
`(sd.dt.year >= year_min) & (sd.dt.year <= year_max)`; comparisons against
`NaT` are false, so a row with an absent `start_date` never passes. -/
def yearPassB (year_min year_max : Int) (c : Cell) : Bool :=
  match toDatetimeCell c with
  | .date d => decide (year_min ≤ d.year) && decide (d.year ≤ year_max)
  | _ => false

/-- `CaseService.filter` (`src/src/services.py`, lines 46–54): the region
mask (skipped when `regions` is the empty list), then the status mask
(skipped when `statuses` is empty), then the start-year range mask.
Boolean-mask selection keeps the surviving rows in their original order. -/
def CaseService.filter (df : List Row) (regions statuses : List String)
    (year_min year_max : Int) : List Row :=
  let fdf := if regions.isEmpty then df
    else df.filter (fun r => regions.contains (pyStrCell r.region))
  let fdf := if statuses.isEmpty then fdf
    else fdf.filter (fun r => statuses.contains (pyStrCell r.status))
  fdf.filter (fun r => yearPassB year_min year_max r.start_date)

/-- The columns `MapBuilder.minimal_map_df` keeps that exist in the present
schema (`color` and `tooltip` are added only by `colorize`/`tooltipify`,
which the claims do not exercise). -/
structure MapRow where
  longitude : Cell
  latitude : Cell
  name : Cell
  deriving DecidableEq, Repr

/-- The column selection and defensive re-coercion of
`MapBuilder.minimal_map_df`. -/
def projMapRow (r : Row) : MapRow :=
  ⟨toNumericCell r.longitude, toNumericCell r.latitude, r.name⟩

/-- `MapBuilder.minimal_map_df` (`src/src/map_builder.py`, lines 10–17):
keep the map columns, re-coerce `longitude`/`latitude` with
`pd.to_numeric(errors="coerce")`, then `dropna(subset=["longitude",
"latitude"])` — only rows whose coordinates are absent after coercion are
dropped. -/
def MapBuilder.minimal_map_df (df : List Row) : List MapRow :=
  (df.map projMapRow).filter (fun m => !(cellIsna m.longitude || cellIsna m.latitude))

/-- The columns of `CaseService.table_display`. -/
structure TableRow where
  id : Cell
  name : Cell
  country : Cell
  region : Cell
  status : Cell
  targeted_group : Cell
  perpetrators : Cell
  start_date : Cell
  last_verified : Cell
  est_deaths : Cell
  deriving DecidableEq, Repr

/-- `CaseService.table_display` (`src/src/services.py`, lines 79–86):
a pure column projection — every row of the input appears in the output. -/
def CaseService.table_display (df : List Row) : List TableRow :=
  df.map (fun r =>
    ⟨r.id, r.name, r.country, r.region, r.status, r.targeted_group,
      r.perpetrators, r.start_date, r.last_verified, r.est_deaths⟩)

/-- A candidate CSV file on disk: either pandas can parse it into a table,
or `pd.read_csv` raises a parse error on it. -/
inductive CsvFile where
  | parsable (rows : List Row)
  | unparseable
  deriving DecidableEq, Repr

/-- `pd.read_csv`: the parsed table, or the raised `ParserError`. -/
def readCsv : CsvFile → Except String (List Row)
  | .parsable rows => .ok rows
  | .unparseable => .error "pandas.errors.ParserError"

/-- `CSVRepository._path` and `CSVRepository.load`
(`src/src/repository.py`, lines 16–29): pick the preferred path if it
exists, else the fallback, else return `None`; then call `pd.read_csv` on
the chosen file with no `try`/`except` around it, so a parse failure
propagates out of `load` as the raised exception. -/
def CSVRepository.load (preferred fallback : Option CsvFile) :
    Option (Except String (List Row)) :=
  match preferred, fallback with
  | some f, _ => some (readCsv f)
  | none, some f => some (readCsv f)
  | none, none => none

/-- How the top level of `src/streamlit_app.py` (lines 68–78) ends the
load step: the no-CSV info box plus sample-creation guidance, an uncaught
exception aborting the script run, or the loaded table. -/
inductive AppOutcome where
  | noCsvPrompt
  | crashed (msg : String)
  | proceed (df : List Row)
  deriving DecidableEq, Repr

/-- The load step of `src/streamlit_app.py`: `df = db.load()` followed by
`if df is None: st.info("No CSV found yet. …"); st.stop()`.  The only
handled case is `None`; an exception raised inside `load` is caught by
nothing in this repository. -/
def appLoad (preferred fallback : Option CsvFile) : AppOutcome :=
  match CSVRepository.load preferred fallback with
  | none => .noCsvPrompt
  | some (.error e) => .crashed e
  | some (.ok df) => .proceed df

/-- The `start_date` years present in a table, as read by
`pd.to_datetime(df["start_date"], errors="coerce").dt.year`
(absent/unparseable dates contribute nothing to `min`/`max`). -/
def startYears (df : List Row) : List Int :=
  df.filterMap (fun r =>
    match toDatetimeCell r.start_date with
    | .date d => some d.year
    | _ => none)

/-- The `yr_min`/`yr_max` computation of `src/streamlit_app.py`
(lines 91–92): `int(….dt.year.min())` and `int(….dt.year.max())` over the
whole normalized table when it is non-empty, else the literals 1900 and
2025.  `none` models the `ValueError` that `int(nan)` raises when the
table is non-empty but no `start_date` parsed. -/
def yrBounds (df : List Row) : Option (Int × Int) :=
  if df.isEmpty then some (1900, 2025)
  else
    match startYears df with
    | [] => none
    | y :: ys => some (ys.foldl min y, ys.foldl max y)

/-- The slider default of `View.sidebar_filters` (`src/src/view.py`,
lines 18–23): `value=(max(1900, yr_min), max(yr_max, yr_min))`. -/
def sliderDefaults (df : List Row) : Option (Int × Int) :=
  (yrBounds df).map (fun p => (max 1900 p.1, max p.2 p.1))

/-- Modelled from the spec: the current year at the time this development
is evaluated (the code is dated 2025, this check runs in 2026); the spec's
empty-table default upper bound "current_year" is not computed anywhere in
`src/` — the app writes the literal `2025`. -/
def currentYear : Int := 2026

theorem toNumericCell_idem (c : Cell) : toNumericCell (toNumericCell c) = toNumericCell c := by
  cases c with
  | str s =>
      rcases h : parseDecimal s with _ | q <;> simp [toNumericCell, h]
  | num q => rfl
  | date d => rfl
  | absent => rfl

theorem toDatetimeCell_idem (c : Cell) :
    toDatetimeCell (toDatetimeCell c) = toDatetimeCell c := by
  cases c with
  | str s =>
      rcases h : parsePyDate s with _ | d <;> simp [toDatetimeCell, h]
  | num q => rfl
  | date d => rfl
  | absent => rfl

theorem normalizeRow_idem (r : Row) : normalizeRow (normalizeRow r) = normalizeRow r := by
  simp [normalizeRow, toNumericCell_idem, toDatetimeCell_idem]

/-- Single-predicate form of the filter contract (the spec's three
conjunctive predicates, empty selection passing all). -/
def specFilterPass (regions statuses : List String) (year_min year_max : Int)
    (r : Row) : Bool :=
  (regions.isEmpty || regions.contains (pyStrCell r.region)) &&
    ((statuses.isEmpty || statuses.contains (pyStrCell r.status)) &&
      yearPassB year_min year_max r.start_date)

theorem filter_eq_pass (df : List Row) (R S : List String) (a b : Int) :
    CaseService.filter df R S a b = df.filter (specFilterPass R S a b) := by
  unfold CaseService.filter specFilterPass
  cases hR : R.isEmpty <;> cases hS : S.isEmpty <;>
    simp [hR, List.filter_filter, Bool.and_comm, Bool.and_left_comm, Bool.and_assoc]

/-- Per-row latitude/longitude message of the amended validator contract,
written as the spec phrases it: absent coordinates first, then a failed
`float` conversion (checked left to right, an out-of-range latitude masking
the longitude entirely), then the range check.  Spec-side definition, to be
compared with `latLonMsgs` from the source. -/
def specLatLonMsgs (r : Row) : List String :=
  if cellIsna r.latitude || cellIsna r.longitude then ["lat/lon missing or invalid"]
  else
    match pyFloat r.latitude with
    | none => ["lat/lon invalid type"]
    | some la =>
        if la < -90 ∨ 90 < la then ["lat/lon out of range"]
        else
          match pyFloat r.longitude with
          | none => ["lat/lon invalid type"]
          | some lo => if lo < -180 ∨ 180 < lo then ["lat/lon out of range"] else []

/-- Per-row outcome of the amended validator contract: the joined message,
or `none` for a clean row. -/
def specRowIssue (r : Row) : Option String :=
  let msgs := specLatLonMsgs r ++
    (if pyStrip (pyStrCell r.sources) = "" then ["missing sources"] else [])
  if msgs = [] then none else some (String.intercalate "; " msgs)

theorem latLonMsgs_eq_spec (r : Row) : latLonMsgs r = specLatLonMsgs r := by
  unfold latLonMsgs specLatLonMsgs rangeCheckExc
  cases hna : (cellIsna r.latitude || cellIsna r.longitude)
  · rcases hla : pyFloat r.latitude with _ | la
    · simp [hla]
    · rcases hlo : pyFloat r.longitude with _ | lo
      · by_cases h1 : -90 ≤ la ∧ la ≤ 90
        · have h1' : ¬(la < -90 ∨ 90 < la) := by
            push_neg
            exact h1
          simp [hla, hlo, h1, h1']
        · have h1' : la < -90 ∨ 90 < la := by
            rcases not_and_or.mp h1 with h | h
            · exact Or.inl (not_le.mp h)
            · exact Or.inr (not_le.mp h)
          simp [hla, hlo, h1, h1']
      · by_cases h1 : -90 ≤ la ∧ la ≤ 90
        · have h1' : ¬(la < -90 ∨ 90 < la) := by
            push_neg
            exact h1
          by_cases h2 : -180 ≤ lo ∧ lo ≤ 180
          · have h2' : ¬(lo < -180 ∨ 180 < lo) := by
              push_neg
              exact h2
            simp [hla, hlo, h1, h1', h2, h2']
          · have h2' : lo < -180 ∨ 180 < lo := by
              rcases not_and_or.mp h2 with h | h
              · exact Or.inl (not_le.mp h)
              · exact Or.inr (not_le.mp h)
            simp [hla, hlo, h1, h1', h2, h2']
        · have h1' : la < -90 ∨ 90 < la := by
            rcases not_and_or.mp h1 with h | h
            · exact Or.inl (not_le.mp h)
            · exact Or.inr (not_le.mp h)
          simp [hla, hlo, h1, h1']
  · simp

theorem specRowIssue_eq (r : Row) :
    specRowIssue r =
      if rowIssues r = [] then none
      else some (String.intercalate "; " (rowIssues r)) := by
  unfold specRowIssue rowIssues
  rw [latLonMsgs_eq_spec]

theorem qiAux_eq_enumFrom (i : Nat) (df : List Row) :
    qiAux i df =
      (df.enumFrom i).filterMap (fun p => (specRowIssue p.2).map (fun m => (p.1, m))) := by
  induction df generalizing i with
  | nil => rfl
  | cons r rs ih =>
      rw [qiAux, List.enumFrom, List.filterMap_cons, specRowIssue_eq]
      by_cases h : rowIssues r = []
      · simp [h, ih]
      · simp [h, ih]

theorem missing_sources_not_in_latLonMsgs (r : Row) :
    "missing sources" ∉ latLonMsgs r := by
  unfold latLonMsgs
  split
  · simp
  · split
    · split <;> simp
    · simp

theorem foldl_min_mem (ys : List Int) : ∀ y : Int, ys.foldl min y ∈ y :: ys := by
  induction ys with
  | nil => intro y; simp
  | cons z zs ih =>
      intro y
      rw [List.foldl_cons]
      rcases List.mem_cons.mp (ih (min y z)) with h | h
      · rw [h]
        rcases min_choice y z with hm | hm <;> rw [hm] <;> simp
      · exact List.mem_cons_of_mem y (List.mem_cons_of_mem z h)

theorem foldl_min_le (ys : List Int) :
    ∀ y : Int, ∀ z ∈ y :: ys, ys.foldl min y ≤ z := by
  induction ys with
  | nil =>
      intro y z hz
      simp at hz
      simp [hz]
  | cons w ws ih =>
      intro y z hz
      rw [List.foldl_cons]
      simp only [List.mem_cons] at hz
      rcases hz with hz | hz | hz
      · exact le_trans (le_trans (ih (min y w) (min y w) (by simp)) (min_le_left y w)) (le_of_eq hz.symm)
      · exact le_trans (le_trans (ih (min y w) (min y w) (by simp)) (min_le_right y w)) (le_of_eq hz.symm)
      · exact ih (min y w) z (by simp [hz])

theorem foldl_max_mem (ys : List Int) : ∀ y : Int, ys.foldl max y ∈ y :: ys := by
  induction ys with
  | nil => intro y; simp
  | cons z zs ih =>
      intro y
      rw [List.foldl_cons]
      rcases List.mem_cons.mp (ih (max y z)) with h | h
      · rw [h]
        rcases max_choice y z with hm | hm <;> rw [hm] <;> simp
      · exact List.mem_cons_of_mem y (List.mem_cons_of_mem z h)

theorem foldl_max_ge (ys : List Int) :
    ∀ y : Int, ∀ z ∈ y :: ys, z ≤ ys.foldl max y := by
  induction ys with
  | nil =>
      intro y z hz
      simp at hz
      simp [hz]
  | cons w ws ih =>
      intro y z hz
      rw [List.foldl_cons]
      simp only [List.mem_cons] at hz
      rcases hz with hz | hz | hz
      · exact le_trans (le_of_eq hz) (le_trans (le_max_left y w) (ih (max y w) (max y w) (by simp)))
      · exact le_trans (le_of_eq hz) (le_trans (le_max_right y w) (ih (max y w) (max y w) (by simp)))
      · exact ih (max y w) z (by simp [hz])

/-- A well-formed raw row, mirroring the sample CSV the app offers to
create (`src/streamlit_app.py`). -/
def baseRow : Row :=
  { id := .str "EX-001"
    name := .str "Example Case"
    country := .str "Exampleland"
    region := .str "Example Region"
    latitude := .str "34.0"
    longitude := .str "71.5"
    start_date := .str "2024-01-01"
    status := .str "ongoing"
    perpetrators := .str "Example Security Forces"
    targeted_group := .str "Example Minority"
    est_deaths := .str "1200"
    last_verified := .str "2025-11-01"
    sources := .str "https://example.org/report"
    summary := .str "Short placeholder summary." }

/-- C1: `CaseService.filter` returns exactly the rows of the input passing
the three conjunctive predicates — region string in `R` (or `R` empty),
status string in `S` (or `S` empty), and `start_date` year within
`[year_min, year_max]` inclusive, a row with an absent `start_date` never
passing the year predicate (`yearPassB` is false on anything but a date).
Equality with `List.filter` of the single conjunctive predicate gives
soundness, completeness, multiplicity one per input occurrence, and
preservation of the original relative order. -/
theorem filter_sound_complete_ordered (df : List Row) (R S : List String)
    (year_min year_max : Int) :
    CaseService.filter df R S year_min year_max =
      df.filter (fun r =>
        (R.isEmpty || R.contains (pyStrCell r.region)) &&
          ((S.isEmpty || S.contains (pyStrCell r.status)) &&
            yearPassB year_min year_max r.start_date)) :=
  filter_eq_pass df R S year_min year_max

/-- C2: an empty `regions` list imposes no region constraint, and an empty
`statuses` list likewise (the `S.isEmpty` disjunct); whenever the year
range covers every row's `start_date` year, the result is exactly the rows
selected by status alone, regardless of region — with `S = ["ongoing"]`,
exactly the rows whose status string is `"ongoing"`. -/
theorem filter_empty_selection_all_pass (df : List Row) (S : List String)
    (year_min year_max : Int)
    (hcov : ∀ r ∈ df, yearPassB year_min year_max r.start_date = true) :
    CaseService.filter df [] S year_min year_max =
      df.filter (fun r => S.isEmpty || S.contains (pyStrCell r.status)) := by
  rw [filter_eq_pass]
  apply List.filter_congr
  intro r hr
  simp [specFilterPass, hcov r hr]

/-- Rows for the empty-selection witness: one ongoing case and one halted
case in different regions, both with in-range start years. -/
def rowOngoing : Row :=
  { baseRow with
    region := .str "Africa"
    status := .str "ongoing"
    start_date := .date ⟨2005, 1, 1⟩ }

/-- Second witness row: a non-ongoing status in another region. -/
def rowHalted : Row :=
  { baseRow with
    region := .str "Asia"
    status := .str "halted"
    start_date := .date ⟨2010, 6, 1⟩ }

theorem filter_empty_selection_all_pass_witness :
    CaseService.filter [rowOngoing, rowHalted] [] ["ongoing"] 2000 2030 =
      [rowOngoing, rowHalted].filter (fun r =>
        ([("ongoing" : String)].isEmpty || ["ongoing"].contains (pyStrCell r.status))) :=
  filter_empty_selection_all_pass [rowOngoing, rowHalted] ["ongoing"] 2000 2030 (by decide)

/-- The raw row of the spec's Scenario A: latitude `"91"` with longitude
`"10"` — out of geographic range but numerically parseable. -/
def rowOutOfRange : Row :=
  { baseRow with latitude := .str "91", longitude := .str "10" }

/-- C3 counterexample: after normalization, the `latitude="91"`,
`longitude="10"` row is flagged `"lat/lon out of range"` and kept in the
table, but it is NOT absent from `MapBuilder.minimal_map_df` — the map
projection drops only rows whose coordinates are absent after numeric
coercion, and `91` is a present number, so the row is rendered at
latitude 91.  This falsifies the claim that out-of-range records are
excluded from map rendering. -/
theorem out_of_range_on_map_cx :
    CaseService.quality_issues (CaseService.normalize [rowOutOfRange]) =
        [(0, "lat/lon out of range")] ∧
      MapBuilder.minimal_map_df (CaseService.normalize [rowOutOfRange]) =
        [⟨.num (mkRat 10 1), .num (mkRat 91 1), .str "Example Case"⟩] ∧
      (CaseService.table_display (CaseService.normalize [rowOutOfRange])).length = 1 := by
  refine ⟨by decide, by decide, by decide⟩

/-- C3 amended: `minimal_map_df` keeps exactly the rows whose `longitude`
and `latitude` are non-absent after `pd.to_numeric` coercion, in order
(out-of-range coordinates are NOT excluded from the map; missing or
non-numeric ones are), and the table keeps every row. -/
theorem minimal_map_drops_only_absent_coords (df : List Row) :
    MapBuilder.minimal_map_df df =
        (df.filter (fun r => !(cellIsna (toNumericCell r.longitude) ||
          cellIsna (toNumericCell r.latitude)))).map projMapRow ∧
      (CaseService.table_display df).length = df.length := by
  constructor
  · unfold MapBuilder.minimal_map_df
    rw [List.filter_map]
    rfl
  · simp [CaseService.table_display]

/-- C4: `CaseService.normalize` is total — every coercion it performs uses
`errors="coerce"`, embedded as total cell functions — and it maps the
table rowwise, so the row count never changes and no row is dropped. -/
theorem normalize_total_preserves_rowcount (df : List Row) :
    (CaseService.normalize df).length = df.length := by
  simp [CaseService.normalize]

/-- Row with an untrimmed name and an absent (empty CSV cell) sources
field. -/
def rowUntrimmed : Row :=
  { baseRow with name := .str " x ", sources := .absent }

/-- C5 counterexample: `normalize` does not touch fields outside the five
coerced columns — a name `" x "` is returned untrimmed, and an absent
`sources` cell stays absent instead of becoming the empty string.  This
falsifies the claim that the other fields come back as trimmed strings
with absent values replaced by `""`. -/
theorem normalize_not_trimming_cx :
    (CaseService.normalize [rowUntrimmed]).map Row.name = [Cell.str " x "] ∧
      Cell.str " x " ≠ Cell.str "x" ∧
      (CaseService.normalize [rowUntrimmed]).map Row.sources = [Cell.absent] ∧
      Cell.absent ≠ Cell.str "" := by
  refine ⟨by decide, by decide, by decide, by decide⟩

/-- C5 amended: `normalize` passes every field other than `latitude`,
`longitude`, `est_deaths`, `start_date` and `last_verified` through
completely unchanged — no trimming, and absent values stay absent. -/
theorem normalize_leaves_other_fields_unchanged (df : List Row) :
    (CaseService.normalize df).map (fun r =>
        (r.id, r.name, r.country, r.region, r.status, r.perpetrators,
          r.targeted_group, r.sources, r.summary)) =
      df.map (fun r =>
        (r.id, r.name, r.country, r.region, r.status, r.perpetrators,
          r.targeted_group, r.sources, r.summary)) := by
  unfold CaseService.normalize
  rw [List.map_map]
  rfl

/-- Row whose latitude is a present string that `float()` cannot convert. -/
def rowBadLat : Row :=
  { baseRow with latitude := .str "abc", longitude := .str "10" }

/-- C6 counterexample: a latitude that is present but not coercible to a
number (`"abc"`) is flagged `"lat/lon invalid type"` by the `except`
branch, not `"lat/lon missing or invalid"` as the claim states for
non-coercible coordinates (`pd.isna("abc")` is false, so the missing
branch is not taken). -/
theorem quality_invalid_type_message_cx :
    CaseService.quality_issues [rowBadLat] = [(0, "lat/lon invalid type")] ∧
      "lat/lon invalid type" ≠ "lat/lon missing or invalid" := by
  refine ⟨by decide, by decide⟩

/-- C6 amended: `quality_issues` enumerates the rows in order and, per
row independently, flags `"lat/lon missing or invalid"` when either
coordinate is absent (`pd.isna`), otherwise `"lat/lon invalid type"` when
a `float()` conversion fails — conversions run left to right with Python
short-circuiting, so an out-of-range latitude yields
`"lat/lon out of range"` without the longitude ever being converted —
otherwise `"lat/lon out of range"` when a converted coordinate is outside
[-90, 90] (latitude) or [-180, 180] (longitude); it flags
`"missing sources"` when the stringified sources field is empty after
trimming; multiple reasons are joined with `"; "` into one message, clean
rows are omitted, and the input table is only read, never altered. -/
theorem quality_issues_characterization (df : List Row) :
    CaseService.quality_issues df =
      df.enum.filterMap (fun p => (specRowIssue p.2).map (fun m => (p.1, m))) :=
  qiAux_eq_enumFrom 0 df

/-- C7 counterexample: a preferred file that exists but cannot be parsed
makes the app's load step end in the propagated `ParserError`, which is a
different outcome from the no-CSV info box with its sample-creation
guidance — the caller never treats a parse failure like "no CSV found". -/
theorem load_parse_error_not_prompt_cx :
    appLoad (some CsvFile.unparseable) none =
        AppOutcome.crashed "pandas.errors.ParserError" ∧
      AppOutcome.crashed "pandas.errors.ParserError" ≠ AppOutcome.noCsvPrompt := by
  refine ⟨rfl, by decide⟩

/-- C7 amended: when the selected CSV file exists but cannot be parsed,
`CSVRepository.load` has no handler around `pd.read_csv`, so the parse
error propagates uncaught out of `load` (whatever the fallback path
holds), the caller's `df is None` branch is not reached, and no
sample-creation guidance is shown. -/
theorem load_parse_error_propagates (fb : Option CsvFile) :
    appLoad (some CsvFile.unparseable) fb =
      AppOutcome.crashed "pandas.errors.ParserError" := rfl

/-- C8: `CaseService.normalize` is idempotent — `pd.to_numeric` fixes
numbers and `NaN`, and `pd.to_datetime(...).dt.date` fixes dates and
`NaT`, so a second application changes nothing. -/
theorem normalize_idempotent (df : List Row) :
    CaseService.normalize (CaseService.normalize df) = CaseService.normalize df := by
  unfold CaseService.normalize
  rw [List.map_map]
  apply List.map_congr_left
  intro r _
  exact normalizeRow_idem r

/-- C9 counterexample: on an empty table the slider defaults are the
literals `(1900, 2025)` — the upper bound is the hardcoded year 2025, not
the current year (2026 at evaluation time of this development), falsifying
the claim that the empty-table default is `[1900, current_year]`. -/
theorem year_defaults_hardcoded_2025_cx :
    sliderDefaults [] = some (1900, 2025) ∧ (2025 : Int) ≠ currentYear := by
  refine ⟨by decide, by decide⟩

/-- C9 amended: the defaults are computed over the whole unfiltered table;
when the table is empty they are the hardcoded `[1900, 2025]`; when at
least one `start_date` parses, the lower default is the minimum present
start year clamped to a floor of 1900 and the upper default is the
maximum present start year (not clamped).  (When the table is non-empty
but no `start_date` parses, `int(nan)` raises and there is no default —
`sliderDefaults` is `none` there.) -/
theorem year_defaults_characterization (df : List Row) (h : startYears df ≠ []) :
    sliderDefaults [] = some (1900, 2025) ∧
      ∃ lo hi, sliderDefaults df = some (max 1900 lo, hi) ∧
        lo ∈ startYears df ∧ (∀ z ∈ startYears df, lo ≤ z) ∧
        hi ∈ startYears df ∧ (∀ z ∈ startYears df, z ≤ hi) := by
  refine ⟨by decide, ?_⟩
  have hdf : ¬df.isEmpty = true := by
    intro hdf
    rw [List.isEmpty_iff.mp hdf] at h
    exact h rfl
  rcases hy : startYears df with _ | ⟨y, ys⟩
  · exact absurd hy h
  · refine ⟨ys.foldl min y, ys.foldl max y, ?_, ?_, ?_, ?_, ?_⟩
    · have hle : ys.foldl min y ≤ ys.foldl max y := by
        have h1 := foldl_min_le ys y (ys.foldl max y) (foldl_max_mem ys y)
        exact h1
      unfold sliderDefaults yrBounds
      rw [if_neg hdf, hy]
      simp [max_eq_left hle]
    · exact foldl_min_mem ys y
    · exact foldl_min_le ys y
    · exact foldl_max_mem ys y
    · exact foldl_max_ge ys y

theorem year_defaults_characterization_witness :
    sliderDefaults [] = some (1900, 2025) ∧
      ∃ lo hi, sliderDefaults [rowOngoing] = some (max 1900 lo, hi) ∧
        lo ∈ startYears [rowOngoing] ∧ (∀ z ∈ startYears [rowOngoing], lo ≤ z) ∧
        hi ∈ startYears [rowOngoing] ∧ (∀ z ∈ startYears [rowOngoing], z ≤ hi) :=
  year_defaults_characterization [rowOngoing] (by decide)

/-- C10: a row whose `sources` cell is absent (a pandas `NaN`, as an empty
CSV cell loads) is never flagged `"missing sources"`: the row-level check
stringifies the value first, `str(nan)` is the non-empty string `"nan"`,
so the emptiness test fails; and the latitude/longitude branch can never
emit that message either, so it is absent from the row's issue list
entirely (hence from the joined `quality_issues` message built from it). -/
theorem nan_sources_not_flagged (r : Row) (h : r.sources = Cell.absent) :
    pyStrip (pyStrCell r.sources) = "nan" ∧ "missing sources" ∉ rowIssues r := by
  constructor
  · rw [h]
    decide
  · unfold rowIssues
    rw [h]
    have hnan : pyStrip (pyStrCell Cell.absent) = "nan" := by decide
    rw [hnan]
    simp only [List.mem_append]
    intro hc
    rcases hc with hc | hc
    · exact missing_sources_not_in_latLonMsgs r hc
    · revert hc
      decide

/-- Row with an absent sources cell for the C10 witness. -/
def rowNanSources : Row :=
  { baseRow with sources := .absent }

theorem nan_sources_not_flagged_witness :
    pyStrip (pyStrCell rowNanSources.sources) = "nan" ∧
      "missing sources" ∉ rowIssues rowNanSources :=
  nan_sources_not_flagged rowNanSources rfl
